import Mathlib

/-!
Verification development for the LINE/Trello chat-task repository
(two revisions under src/: `app.py`, the elaborated revision, and
`app.py.py`, the minimal revision).  The definitions below are shallow
embeddings of the decision logic of those files: the message intent
routing inside `callback`, the binding-command handler, the create-task
handler with its Chinese date preprocessing, the binding store
load/save, and the due-date scan `check_trello_cards`.  Machine-level
I/O (Flask, requests, the LINE/Trello/OpenAI HTTP clients) is
abstracted as opaque function parameters or as explicit effect lists,
exactly as the callers observe it.
-/

namespace LineTrello

/-! ## Python string primitives used by the source

All of them are implemented by structural recursion over the character
list of the string (rather than through the byte-position loops of the
core library), so that every concrete instance reduces inside the
kernel. -/

/-- Does the second list occur as a prefix of the first? -/
def listStartsWith : List Char → List Char → Bool
  | _, [] => true
  | [], _ :: _ => false
  | c :: cs, p :: ps => c == p && listStartsWith cs ps

/-- Replacement loop: in the skip state `n+1` the character belongs to a
match whose replacement was already emitted. -/
def replaceGo (p r : List Char) : Nat → List Char → List Char
  | 0, [] => []
  | 0, c :: cs =>
    if listStartsWith (c :: cs) p then r ++ replaceGo p r (p.length - 1) cs
    else c :: replaceGo p r 0 cs
  | _ + 1, [] => []
  | n + 1, _ :: cs => replaceGo p r n cs

/-- Python `s.replace(pat, repl)`: every non-overlapping occurrence,
scanned left to right (the sources only call it with non-empty
patterns). -/
def pyReplace (s pat repl : String) : String :=
  if pat.data = [] then s
  else String.mk (replaceGo pat.data repl.data 0 s.data)

/-- Split loop, with the same skip-state bookkeeping. -/
def splitGo (sep : List Char) : Nat → List Char → List Char → List (List Char)
  | 0, acc, [] => [acc.reverse]
  | 0, acc, c :: cs =>
    if listStartsWith (c :: cs) sep then
      acc.reverse :: splitGo sep (sep.length - 1) [] cs
    else splitGo sep 0 (c :: acc) cs
  | _ + 1, acc, [] => [acc.reverse]
  | n + 1, acc, _ :: cs => splitGo sep n acc cs

/-- Python `s.split(sep)` for a non-empty separator: adjacent and
trailing separators produce empty parts. -/
def pySplitOn (s sep : String) : List String :=
  if sep.data = [] then [s]
  else (splitGo sep.data 0 [] s.data).map String.mk

/-- Python `s.startswith(pre)`. -/
def pyStartsWith (s pre : String) : Bool :=
  listStartsWith s.data pre.data

/-- Python `len(s)` (in characters). -/
def pyLen (s : String) : Nat := s.data.length

/-- Python `s[n:]` (drop the first `n` characters). -/
def pyDrop (s : String) (n : Nat) : String := String.mk (s.data.drop n)

/-- Python `s.lower()` (ASCII letters; CJK is unaffected, as in
Python). -/
def pyToLower (s : String) : String := String.mk (s.data.map Char.toLower)

/-- Python `str.strip()` whitespace predicate (ASCII repertoire, which is
the only whitespace that can appear in the inputs handled here). -/
def isPySpace (c : Char) : Bool :=
  c = ' ' || c = '\t' || c = '\n' || c = '\r' || c = Char.ofNat 11 || c = Char.ofNat 12

/-- Python `s.strip()`: remove leading and trailing whitespace. -/
def pyStrip (s : String) : String :=
  String.mk (((s.data.dropWhile isPySpace).reverse.dropWhile isPySpace).reverse)

/-- Python `pat in s` (substring containment), for non-empty `pat`. -/
def pyContains (s pat : String) : Bool :=
  (pySplitOn s pat).length != 1

/-- The ASCII apostrophe character (0x27), spelled out so the literal
user-facing message strings of the source can be reproduced verbatim. -/
def sq : String := String.mk [Char.ofNat 39]

/-! ## Python datetimes

`datetime.datetime` values are modelled with an integer calendar day
(days since 1970-01-01, which was a Thursday) plus clock fields. -/

structure PyDateTime where
  day : Int
  hour : Nat
  minute : Nat
  second : Nat
  microsecond : Nat
deriving Repr, DecidableEq

/-- Total microseconds of a datetime, the resolution `timedelta` uses. -/
def toMicro (d : PyDateTime) : Int :=
  ((d.day * 24 + d.hour) * 60 + d.minute) * 60 * 1000000
    + d.second * 1000000 + d.microsecond

/-- Python `(a - b).days`: `timedelta.days` is the floor of the exact
difference in days (floor division, also for negative differences). -/
def timedeltaDays (a b : PyDateTime) : Int :=
  (toMicro a - toMicro b).fdiv 86400000000

/-- Shift a datetime by whole calendar days (clock fields unchanged). -/
def addDays (d : PyDateTime) (n : Int) : PyDateTime :=
  { d with day := d.day + n }

/-- `datetime.weekday()`: Monday = 0 … Sunday = 6; day 0 is a Thursday. -/
def pyWeekdayOf (d : Int) : Int := (d + 3) % 7

/-- `d + relativedelta(weekday=w)`: the first day on or after `d` whose
weekday is `w` (it stays on `d` when `d` already has weekday `w`). -/
def nextWeekdayOnOrAfter (d : Int) (w : Nat) : Int :=
  d + ((w : Int) - pyWeekdayOf d) % 7

/-! ## The `dateutil.parser.parse(s, fuzzy=True)` fragment

`app.py` delegates step 4 of its date resolution to
`dateutil.parser.parse(s, fuzzy=True)` (no `default` argument, so the
library substitutes the current date at midnight).  The fragment of the
library behaviour exercised by this repository is modelled here:

* the lexer groups maximal runs of alphabetic characters into a single
  token (`str.isalpha`, which is true for CJK ideographs, so a CJK
  character glued to ASCII letters extends the same token), groups
  digit runs, and emits every other character as a one-character token;
* the only information-carrying tokens reachable from the app's
  substitution tables are the full lowercase English weekday names
  (the app never produces numeric date tokens, month names, or
  meridians); each recognized weekday token overwrites `res.weekday`;
* `fuzzy=True` skips unrecognized tokens instead of failing on them;
* if, after the scan, no token carried any date information the call
  raises `ParserError` (a `ValueError`): "String does not contain a
  date" — modelled as `none`;
* a lone weekday resolves to `default + relativedelta(weekday=w)` at
  the default's midnight clock. -/

/-- Python `str.isalpha` on the repertoire appearing in this program:
ASCII letters and CJK ideographs. -/
def isPyAlpha (c : Char) : Bool :=
  c.isAlpha || (0x3400 ≤ c.toNat && c.toNat ≤ 0x9FFF)

/-- Character class used by the lexer: 0 = alphabetic, 1 = digit,
2 = other (single-character tokens). -/
def tokType (c : Char) : Nat :=
  if isPyAlpha c then 0 else if c.isDigit then 1 else 2

/-- Lexer loop: `cur` holds the (reversed) characters of the token being
accumulated. -/
def tokenizeAux : List Char → List Char → List String
  | [], cur => if cur = [] then [] else [String.mk cur.reverse]
  | c :: rest, cur =>
    match cur with
    | [] =>
      if tokType c = 2 then String.mk [c] :: tokenizeAux rest []
      else tokenizeAux rest [c]
    | d :: _ =>
      if tokType c = tokType d && tokType c != 2 then
        tokenizeAux rest (c :: cur)
      else
        String.mk cur.reverse ::
          (if tokType c = 2 then String.mk [c] :: tokenizeAux rest []
           else tokenizeAux rest [c])

def tokenize (s : String) : List String := tokenizeAux s.data []

/-- Weekday-name lookup of the parser info (Monday = 0 … Sunday = 6). -/
def weekdayIndex (tok : String) : Option Nat :=
  match pyToLower tok with
  | "monday" => some 0
  | "tuesday" => some 1
  | "wednesday" => some 2
  | "thursday" => some 3
  | "friday" => some 4
  | "saturday" => some 5
  | "sunday" => some 6
  | _ => none

/-- `dateutil.parser.parse(s, fuzzy=True)` with the implicit default of
the current date (`defaultDay`) at midnight, on the fragment described
above.  `none` models the raised `ParserError`/`ValueError`. -/
def parseFuzzy (s : String) (defaultDay : Int) : Option PyDateTime :=
  match ((tokenize s).filterMap weekdayIndex).getLast? with
  | none => none
  | some w => some ⟨nextWeekdayOnOrAfter defaultDay w, 0, 0, 0, 0⟩

/-! ## The binding store

A Python `dict` (insertion-ordered) mapping LINE user id → Trello
member id, as held in memory by both revisions. -/

abbrev Store := List (String × String)

/-- `bindings.get(user_id)`. -/
def storeGet (s : Store) (k : String) : Option String :=
  (s.find? (fun p => p.1 == k)).map (fun p => p.2)

/-- `bindings[user_id] = v`: overwrite in place, else append (dict
insertion order). -/
def storeSet (s : Store) (k v : String) : Store :=
  if s.any (fun p => p.1 == k) then
    s.map (fun p => if p.1 == k then (k, v) else p)
  else s ++ [(k, v)]

/-! ## Effects

One inbound text-message event is summarised by the observable effects
the handler produces: LINE push messages sent (in order), prompts sent
to the language model, Trello card-creation requests issued, and the
resulting in-memory store together with whether `save_bindings` ran. -/

/-- A Trello card-creation request as issued by the handlers: the card
name, the (unresolved) member name passed along, and the due datetime
attached to the request (absent when resolution failed or no date was
given). -/
structure CardReq where
  name : String
  member : Option String
  due : Option PyDateTime
deriving Repr, DecidableEq

structure Effects where
  sent : List (String × String)
  llmPrompts : List String
  cards : List CardReq
  store : Store
  saved : Bool
deriving Repr, DecidableEq

/-! ## File-system states for the binding snapshot

`load_bindings` distinguishes: file absent; file present but unreadable
(`open` raises an `OSError` such as `PermissionError`); file readable
but not JSON (`json.load` raises `json.JSONDecodeError`); file valid. -/

inductive BindingFileState where
  | missing
  | unreadable
  | malformed
  | valid (b : Store)
deriving Repr, DecidableEq

/-- Python exceptions observable in the modelled paths. -/
inductive PyErr where
  | fileNotFound
  | osError
  | jsonDecodeError
  | nameError (n : String)
deriving Repr, DecidableEq

/-- `os.path.exists(BINDING_FILE)`. -/
def os_path_exists : BindingFileState → Bool
  | .missing => false
  | _ => true

/-- `open(BINDING_FILE)` followed by `json.load(f)`: the exception each
file state produces, or the decoded dict. -/
def open_and_json_load : BindingFileState → Except PyErr Store
  | .missing => .error .fileNotFound
  | .unreadable => .error .osError
  | .malformed => .error .jsonDecodeError
  | .valid b => .ok b

namespace App

/-! # Model of `src/app.py` (the elaborated revision) -/

/-- `load_bindings` (app.py lines 55-72): the try-body returns the
decoded dict when the file exists, `{}` when it does not; the three
`except` clauses (`FileNotFoundError`, `json.JSONDecodeError`, bare
`Exception`) each downgrade their exception to `{}`. -/
def load_bindings (fs : BindingFileState) : Except PyErr Store :=
  let body : Except PyErr Store :=
    if os_path_exists fs then open_and_json_load fs else .ok []
  match body with
  | .ok b => .ok b
  | .error .fileNotFound => .ok []      -- except FileNotFoundError
  | .error .jsonDecodeError => .ok []   -- except json.JSONDecodeError
  | .error _ => .ok []                  -- except Exception

/-- The user-visible rejection for an empty Trello id
(app.py line 96). -/
def emptyBindIdMsg : String :=
  "Trello 帳號 ID 不得為空，請重新輸入正確格式：『綁定 trello@你的Trello會員ID』"

/-- The bind-success reply (app.py line 101). -/
def bindOkMsg (tid : String) : String :=
  "綁定成功！您的 Trello 帳號 ID：" ++ tid

/-- `handle_binding_command` (app.py lines 92-104).  Returns `some`
effects when the text is a bind command (the Python function returns
`True`), `none` otherwise.  `text.replace("綁定 trello@", "")` removes
every occurrence of the prefix, and the remainder is stripped; an empty
remainder is rejected without touching or saving the store. -/
def handle_binding_command (user_id text : String) (bindings : Store) :
    Option Effects :=
  if pyStartsWith text "綁定 trello@" then
    let trello_id_input := pyStrip (pyReplace text "綁定 trello@" "")
    if trello_id_input = "" then
      some ⟨[(user_id, emptyBindIdMsg)], [], [], bindings, false⟩
    else
      some ⟨[(user_id, bindOkMsg trello_id_input)], [],
        [], storeSet bindings user_id trello_id_input, true⟩
  else none

/-- `handle_status_query` (app.py lines 107-118): fires when the text
contains 狀態 or 進度; `trello_id` is `bindings.get(user_id)` (possibly
`None`).  `llm` models `get_chatgpt_response` and `tasks` models
`get_user_trello_tasks`; both catch their own HTTP errors internally
and always return a string, so the handler's `except` arm is not
reachable through them. -/
def handle_status_query (llm : String → String)
    (tasks : Option String → String) (user_id : String)
    (trello_id : Option String) (text : String) (bindings : Store) :
    Option Effects :=
  if pyContains text "狀態" || pyContains text "進度" then
    let prompt := "我的任務狀態是：" ++ tasks trello_id
    some ⟨[(user_id, llm prompt)], [prompt], [], bindings, false⟩
  else none

/-- Parsed create-task fields, exactly the four locals of
`handle_create_task_command` before date resolution. -/
structure TaskParse where
  task_name : String
  member_name : Option String
  start_date_str : Option String
  due_date_str : Option String
deriving Repr, DecidableEq

/-- The field-extraction loop of `handle_create_task_command`
(app.py lines 129-139): split on the fullwidth comma, then take the
trimmed remainder of each recognized marker (新增任務：, 成員：,
開始日期：, and 截止日期：/日期： both meaning the due date); later
segments overwrite earlier ones. -/
def parse_task_fields (text : String) : TaskParse :=
  (pySplitOn text "，").foldl
    (fun acc line =>
      if pyStartsWith line "新增任務：" then
        { acc with task_name := pyStrip (pyDrop line (pyLen "新增任務：")) }
      else if pyStartsWith line "成員：" then
        { acc with member_name := some (pyStrip (pyDrop line (pyLen "成員："))) }
      else if pyStartsWith line "開始日期：" then
        { acc with start_date_str := some (pyStrip (pyDrop line (pyLen "開始日期："))) }
      else if pyStartsWith line "截止日期：" then
        { acc with due_date_str := some (pyStrip (pyDrop line (pyLen "截止日期："))) }
      else if pyStartsWith line "日期：" then
        { acc with due_date_str := some (pyStrip (pyDrop line (pyLen "日期："))) }
      else acc)
    ⟨"", none, none, none⟩

/-- Step 1 of the due-date preprocessing (app.py line 158):
`due_date_str.replace("前", "").replace("之前", "")`.  Note the order:
every 前 is removed first, so no 之前 can remain for the second
replace. -/
def strip_qualifiers (s : String) : String :=
  pyReplace (pyReplace s "前" "") "之前" ""

/-- The weekday substitution table (app.py lines 161-178), in the
source's dict order. -/
def weekday_mapping : List (String × String) :=
  [("下星期一", "next monday"),
   ("週日", "sunday"), ("星期日", "sunday"),
   ("週一", "monday"), ("星期一", "monday"),
   ("週二", "tuesday"), ("星期二", "tuesday"),
   ("週三", "wednesday"), ("星期三", "wednesday"),
   ("週四", "thursday"), ("星期四", "thursday"),
   ("週五", "friday"), ("星期五", "friday"),
   ("週六", "saturday"), ("星期六", "saturday"),
   ("明天", "tomorrow")]

/-- Step 2 (app.py lines 179-180): literal substring replacement of
each table entry over the whole phrase, in table order. -/
def apply_weekday_mapping (s : String) : String :=
  weekday_mapping.foldl (fun acc p => pyReplace acc p.1 p.2) s

/-- Step 3 (app.py lines 183-196): the first matching time-of-day
keyword, checked in the fixed order 早上/中午/下午/晚上, records its
default hour and is removed from the phrase; `hour = 0` means none
matched. -/
def extract_time_default (s : String) : Nat × String :=
  if pyContains s "早上" then (8, pyReplace s "早上" "")
  else if pyContains s "中午" then (12, pyReplace s "中午" "")
  else if pyContains s "下午" then (14, pyReplace s "下午" "")
  else if pyContains s "晚上" then (20, pyReplace s "晚上" "")
  else (0, s)

/-- The full due-date resolution of `handle_create_task_command`
(app.py lines 156-201): strip the before-qualifiers, substitute
weekdays, extract a time-of-day default, fuzzy-parse the remainder
against now's date at midnight, and, when a time keyword was found
(`hour != 0`), overwrite the clock fields.  `none` models the
`ValueError` the parser raises on a phrase with no date content. -/
def resolve_due (s : String) (now : PyDateTime) : Option PyDateTime :=
  let s1 := strip_qualifiers s
  let s2 := apply_weekday_mapping s1
  let ts := extract_time_default s2
  match parseFuzzy ts.2 now.day with
  | none => none
  | some dt =>
    some (if ts.1 ≠ 0 then ⟨dt.day, ts.1, 0, 0, 0⟩ else dt)

/-- The structure warning of the fallback branch (app.py line 143). -/
def structWarnMsg : String :=
  "提醒：請在訊息中包含 " ++ sq ++ "新增任務：" ++ sq ++
  " 來建立任務，例如：新增任務：[任務名稱]，成員：[成員名稱]，日期：[週六前]"

/-- The date-resolution-failure warning (app.py line 208). -/
def dateFailMsg : String :=
  "提醒：日期解析失敗，請嘗試更明確的日期描述，例如：YYYY-MM-DD 或 " ++
  sq ++ "下星期一" ++ sq ++ "。"

/-- `handle_create_task_command` (app.py lines 121-213).  It always
returns `True` in Python, so this returns plain `Effects`.  When no
新增任務： segment produced a name, the fallback warns about the
missing structure, replies through the language model, and — because
`create_trello_card` is called only inside the structured `else`
branch — issues no card request.  In the structured branch the start
date is parsed raw and the due date through `resolve_due`; both sit in
one `try`, whose `except ValueError` downgrades a parse failure to the
warning message, leaving `due_datetime = None` for the card. -/
def handle_create_task_command (llm : String → String)
    (now : PyDateTime) (user_id text : String) (bindings : Store) :
    Effects :=
  let f := parse_task_fields text
  if f.task_name = "" then
    ⟨[(user_id, structWarnMsg), (user_id, llm text)], [text], [],
      bindings, false⟩
  else
    let parsed : Except Unit (Option PyDateTime) :=
      (match f.start_date_str with
        | none => Except.ok ()
        | some s =>
          if s = "" then Except.ok ()
          else match parseFuzzy s now.day with
            | none => Except.error ()
            | some _ => Except.ok ()).bind
      (fun _ =>
        match f.due_date_str with
        | none => Except.ok none
        | some s =>
          if s = "" then Except.ok none
          else match resolve_due s now with
            | none => Except.error ()
            | some d => Except.ok (some d))
    match parsed with
    | .error _ =>
      ⟨[(user_id, dateFailMsg), (user_id, llm text)], [text],
        [⟨f.task_name, f.member_name, none⟩], bindings, false⟩
    | .ok d =>
      ⟨[(user_id, llm text)], [text],
        [⟨f.task_name, f.member_name, d⟩], bindings, false⟩

/-- The per-text-message dispatch of `callback` (app.py lines 235-251):
bind command first, then status query (invoked with
`bindings.get(user_id)`, bound or not — this revision never checks the
binding before routing), then `handle_create_task_command`, which
always reports the message handled, so the trailing general-message
branch of `callback` is unreachable. -/
def callback_text_event (llm : String → String)
    (tasks : Option String → String) (now : PyDateTime)
    (bindings : Store) (user_id text : String) : Effects :=
  match handle_binding_command user_id text bindings with
  | some e => e
  | none =>
    match handle_status_query llm tasks user_id
        (storeGet bindings user_id) text bindings with
    | some e => e
    | none => handle_create_task_command llm now user_id text bindings

/-! ### `create_trello_card` and its error branch (app.py lines 272-307)

The card-creation request itself is HTTP glue; what the safety claim
turns on is the `except requests.exceptions.RequestException` branch,
which executes `send_line_message(bindings.get(user_id), ...)`.
Python resolves a bare name against the function's local scope, then
the module's global scope, then builtins; a miss raises `NameError`.
The name lists below transcribe `create_trello_card`'s parameters, the
names its body assigns, and every name bound at module level in
app.py. -/

/-- The parameters of `create_trello_card`. -/
def create_trello_card_params : List String :=
  ["card_name", "member_name", "start_date_str", "due_date_str", "due_datetime"]

/-- The names assigned anywhere in `create_trello_card`'s body (locals),
including the `except ... as e` targets. -/
def create_trello_card_locals : List String :=
  ["url", "query", "member_id", "response", "e"]

/-- Every name bound at module level in app.py: imports, configuration
values, and the module's own functions.  (`serve` is imported only
inside the `__main__` guard and `waitress` only as its source module;
neither changes the lookups below.) -/
def app_module_globals : List String :=
  ["json", "datetime", "hmac", "hashlib", "base64", "requests", "os",
   "logging", "Flask", "request", "abort", "BackgroundScheduler",
   "openai", "parser", "load_dotenv", "app", "logger",
   "required_env_vars", "var",
   "LINE_CHANNEL_ACCESS_TOKEN", "LINE_CHANNEL_SECRET",
   "TRELLO_API_KEY", "TRELLO_TOKEN", "TRELLO_BOARD_ID",
   "TRELLO_LIST_ID", "OPENAI_API_KEY", "BINDING_FILE",
   "load_bindings", "save_bindings", "validate_signature",
   "handle_binding_command", "handle_status_query",
   "handle_create_task_command", "callback", "trello_webhook",
   "create_trello_card", "get_list_map", "get_user_trello_tasks",
   "get_chatgpt_response", "send_line_message", "check_trello_cards",
   "get_trello_member_id_by_name", "scheduler"]

/-- Name resolution inside `create_trello_card`: locals, then module
globals (no relevant builtin is named `bindings` or `user_id`). -/
def nameInCardScope (n : String) : Bool :=
  (create_trello_card_params ++ create_trello_card_locals
    ++ app_module_globals).contains n

/-- The `except requests.exceptions.RequestException` branch of
`create_trello_card` (app.py lines 305-307): after logging it evaluates
`send_line_message(bindings.get(user_id), f"建立 Trello 卡片 '...' 失敗...")`.
The result is the list of LINE messages the branch manages to send, or
the exception that escapes it. -/
def create_trello_card_on_request_error (card_name : String) :
    Except PyErr (List (String × String)) :=
  if nameInCardScope "bindings" then
    if nameInCardScope "user_id" then
      .ok [("bindings.get(user_id)",
        "建立 Trello 卡片 " ++ sq ++ card_name ++ sq ++ " 失敗，請稍後再試。")]
    else .error (.nameError "user_id")
  else .error (.nameError "bindings")

end App

/-! ## The due-date scan `check_trello_cards`

The scanning logic of app.py lines 402-422 and app.py.py lines 156-172
is identical; it is modelled once.  A card's `due` field is `none` both
when the board supplied no due date and when the ISO-8601 string failed
`datetime.datetime.fromisoformat` — both cases `continue` without a
reminder. -/

structure TrelloCard where
  name : String
  due : Option PyDateTime
  idMembers : List String
deriving Repr, DecidableEq

/-- The reminder text (f-string of app.py line 422 / app.py.py
line 172). -/
def reminderMsg (name : String) : String :=
  "提醒：任務『" ++ name ++ "』明天截止，請注意。"

/-- `check_trello_cards`, as a function of the card snapshot, the
loaded bindings and the current time: a card produces reminders iff it
has a (parsed) due timestamp with `(due - now).days == 1`; each member
id is reverse-looked-up as the first binding whose Trello id matches
(`next(...)`, dict order), and a missing — or falsy, i.e. empty —
user id sends nothing. -/
def check_trello_cards (cards : List TrelloCard) (bindings : Store)
    (now : PyDateTime) : List (String × String) :=
  cards.foldr
    (fun card acc =>
      (match card.due with
        | none => []
        | some due =>
          if timedeltaDays due now = 1 then
            card.idMembers.foldr
              (fun mid acc2 =>
                (match bindings.find? (fun p => p.2 == mid) with
                  | some p =>
                    if p.1 == "" then [] else [(p.1, reminderMsg card.name)]
                  | none => []) ++ acc2)
              []
          else []) ++ acc)
    []

namespace AppPy

/-! # Model of `src/app.py.py` (the minimal revision) -/

/-- `load_bindings` (app.py.py lines 29-33): no `try` — a present but
unreadable or malformed file lets the `open`/`json.load` exception
propagate to the caller; only the missing file yields `{}`. -/
def load_bindings (fs : BindingFileState) : Except PyErr Store :=
  if os_path_exists fs then open_and_json_load fs else .ok []

/-- The must-bind rejection (app.py.py line 72). -/
def mustBindMsg : String :=
  "請先綁定Trello帳號，輸入『綁定 trello@你的Trello會員ID』"

/-- The bind-success reply (app.py.py line 67). -/
def bindOkMsg (tid : String) : String :=
  "綁定成功！你的Trello帳號ID：" ++ tid

/-- The per-text-message logic of `callback` (app.py.py lines 58-82):
a bind command stores whatever remains after the prefix (no empty-id
check) and saves; otherwise an unbound user (`bindings.get` returning
`None` — or an empty string, which is equally falsy) receives only the
must-bind instruction; a bound user gets the status flow on 狀態/進度
and otherwise a ChatGPT reply plus `create_trello_card(text)` — a card
named by the whole message. -/
def callback_text_event (llm : String → String)
    (tasks : String → String) (bindings : Store)
    (user_id text : String) : Effects :=
  if pyStartsWith text "綁定 trello@" then
    let trello_id := pyStrip (pyReplace text "綁定 trello@" "")
    ⟨[(user_id, bindOkMsg trello_id)], [], [],
      storeSet bindings user_id trello_id, true⟩
  else
    let trello_id := (storeGet bindings user_id).getD ""
    if trello_id = "" then
      ⟨[(user_id, mustBindMsg)], [], [], bindings, false⟩
    else if pyContains text "狀態" || pyContains text "進度" then
      let prompt := "我的任務狀態是：" ++ tasks trello_id
      ⟨[(user_id, llm prompt)], [prompt], [], bindings, false⟩
    else
      ⟨[(user_id, llm text)], [text], [⟨text, none, none⟩],
        bindings, false⟩

end AppPy

/-! # Theorems -/

/-- The day-difference of a datetime shifted by whole days. -/
theorem timedeltaDays_addDays (now : PyDateTime) (n : Int) :
    timedeltaDays (addDays now n) now = n := by
  have h : toMicro (addDays now n) - toMicro now = n * 86400000000 := by
    unfold toMicro addDays
    ring
  unfold timedeltaDays
  rw [h, Int.mul_fdiv_cancel _ (by norm_num)]

/-- Claim C1 (amended): only the minimal revision `app.py.py` rejects
unbound users.  There, every inbound text message that is not a bind
command, sent by a user with no binding in the store, is answered with
the bind instruction alone: no card request, no language-model call,
store untouched and not saved. -/
theorem must_bind_rejection_in_minimal_revision
    (llm tasks : String → String) (store : Store) (uid text : String)
    (h1 : pyStartsWith text "綁定 trello@" = false)
    (h2 : storeGet store uid = none) :
    AppPy.callback_text_event llm tasks store uid text =
      ⟨[(uid, AppPy.mustBindMsg)], [], [], store, false⟩ := by
  simp [AppPy.callback_text_event, h1, h2]

/-- Witness for C1's theorem: the unbound user "U" sending 哈囉 to the
minimal revision receives the bind instruction only. -/
theorem must_bind_rejection_in_minimal_revision_witness :
    AppPy.callback_text_event (fun _ => "r") (fun _ => "t") [] "U" "哈囉" =
      ⟨[("U", AppPy.mustBindMsg)], [], [], [], false⟩ :=
  must_bind_rejection_in_minimal_revision
    (fun _ => "r") (fun _ => "t") [] "U" "哈囉" rfl rfl

/-- Counterexample to claim C1 as stated: in `app.py` the unbound user
"U" sending 新增任務：買菜 is not rejected — the message goes to the
language model and a board card is created. -/
theorem unbound_message_forwarded_in_app_cex :
    App.callback_text_event (fun _ => "R") (fun _ => "T")
        ⟨0, 0, 0, 0, 0⟩ [] "U" "新增任務：買菜" =
      ⟨[("U", "R")], ["新增任務：買菜"], [⟨"買菜", none, none⟩], [], false⟩ :=
  rfl

/-- Claim C2: in `app.py`, a bound user's non-bind, non-status message
買牛奶 with no 新增任務： segment gets the missing-structure warning
and a language-model reply, but no card request is issued (the
`create_trello_card` call sits in the structured `else` branch only);
in `app.py.py` the same message creates a card named by the entire raw
text — without any structure warning. -/
theorem fallback_warns_but_creates_no_card :
    App.callback_text_event (fun _ => "R") (fun _ => "T")
        ⟨0, 0, 0, 0, 0⟩ [("U", "T1")] "U" "買牛奶" =
      ⟨[("U", App.structWarnMsg), ("U", "R")], ["買牛奶"], [],
        [("U", "T1")], false⟩
    ∧ AppPy.callback_text_event (fun _ => "R") (fun _ => "T")
        [("U", "T1")] "U" "買牛奶" =
      ⟨[("U", "R")], ["買牛奶"], [⟨"買牛奶", none, none⟩],
        [("U", "T1")], false⟩ :=
  ⟨rfl, rfl⟩

/-- Claim C3: the due-date scan triggers exactly on a day-difference of
one.  A card due exactly one day after `now` whose sole member id is
bound to `uid` yields the single reminder `(uid, text containing the
card name)`; a card due two days out yields nothing; an unbound member
id yields nothing; a card with no due timestamp yields nothing; any
day-difference other than one yields nothing; and the reminder text
contains the card name. -/
theorem due_scan_single_point_trigger
    (bindings : Store) (now : PyDateTime) (uid mid name : String)
    (hb : bindings.find? (fun p => p.2 == mid) = some (uid, mid))
    (hu : uid ≠ "") :
    check_trello_cards [⟨name, some (addDays now 1), [mid]⟩] bindings now
        = [(uid, reminderMsg name)]
    ∧ check_trello_cards [⟨name, some (addDays now 2), [mid]⟩] bindings now
        = []
    ∧ (∀ mid2, bindings.find? (fun p => p.2 == mid2) = none →
        check_trello_cards [⟨name, some (addDays now 1), [mid2]⟩] bindings now
          = [])
    ∧ (∀ c : TrelloCard, c.due = none →
        check_trello_cards [c] bindings now = [])
    ∧ (∀ c : TrelloCard, ∀ d, c.due = some d → timedeltaDays d now ≠ 1 →
        check_trello_cards [c] bindings now = [])
    ∧ (∃ pre post, reminderMsg name = pre ++ (name ++ post)) := by
  refine ⟨?_, ?_, ?_, ?_, ?_,
    ⟨"提醒：任務『", "』明天截止，請注意。", rfl⟩⟩
  · simp [check_trello_cards, timedeltaDays_addDays, hb, hu]
  · simp [check_trello_cards, timedeltaDays_addDays]
  · intro mid2 hm
    simp [check_trello_cards, timedeltaDays_addDays, hm]
  · intro c hc
    simp [check_trello_cards, hc]
  · intro c d hd hne
    simp [check_trello_cards, hd, hne]

/-- Witness for C3's theorem: concrete store `[("U1", "M1")]`, `now` at
day 0 midnight, card "任務A" due day 1 midnight. -/
theorem due_scan_single_point_trigger_witness :
    check_trello_cards [⟨"任務A", some ⟨1, 0, 0, 0, 0⟩, ["M1"]⟩]
        [("U1", "M1")] ⟨0, 0, 0, 0, 0⟩
      = [("U1", reminderMsg "任務A")] :=
  (due_scan_single_point_trigger [("U1", "M1")] ⟨0, 0, 0, 0, 0⟩
    "U1" "M1" "任務A" rfl (by decide)).1

/-- Claim C4 (amended): in `app.py` a bind command whose id strips to
empty is rejected with the empty-id error and the store is neither
changed nor saved; the minimal revision `app.py.py` has no such check —
it stores the empty binding, saves, and replies bind-success. -/
theorem empty_bind_id_rejected_in_app
    (llm : String → String) (tasks : Option String → String)
    (llm2 tasks2 : String → String) (now : PyDateTime) (store : Store)
    (uid text : String)
    (h1 : pyStartsWith text "綁定 trello@" = true)
    (h2 : pyStrip (pyReplace text "綁定 trello@" "") = "") :
    App.callback_text_event llm tasks now store uid text =
      ⟨[(uid, App.emptyBindIdMsg)], [], [], store, false⟩
    ∧ AppPy.callback_text_event llm2 tasks2 store uid text =
      ⟨[(uid, AppPy.bindOkMsg "")], [], [], storeSet store uid "", true⟩ := by
  constructor
  · simp [App.callback_text_event, App.handle_binding_command, h1, h2]
  · simp [AppPy.callback_text_event, h1, h2]

/-- Witness for C4's theorem: the whitespace-only id message
"綁定 trello@  " against the store `[("X", "Y")]`. -/
theorem empty_bind_id_rejected_in_app_witness :
    App.callback_text_event (fun _ => "r") (fun _ => "t")
        ⟨0, 0, 0, 0, 0⟩ [("X", "Y")] "U" "綁定 trello@  " =
      ⟨[("U", App.emptyBindIdMsg)], [], [], [("X", "Y")], false⟩
    ∧ AppPy.callback_text_event (fun _ => "r") (fun _ => "t")
        [("X", "Y")] "U" "綁定 trello@  " =
      ⟨[("U", AppPy.bindOkMsg "")], [], [], [("X", "Y"), ("U", "")], true⟩ :=
  empty_bind_id_rejected_in_app (fun _ => "r") (fun _ => "t")
    (fun _ => "r") (fun _ => "t") ⟨0, 0, 0, 0, 0⟩ [("X", "Y")]
    "U" "綁定 trello@  " rfl rfl

/-- Counterexample to claim C4 as stated: in `app.py.py` the message
"綁定 trello@" (empty id) changes the store — the empty binding is
stored for "U" and saved to disk, with a bind-success reply and no
error message. -/
theorem empty_bind_id_stored_in_minimal_revision_cex :
    AppPy.callback_text_event (fun _ => "R") (fun _ => "T") [] "U"
        "綁定 trello@" =
      ⟨[("U", AppPy.bindOkMsg "")], [], [], [("U", "")], true⟩ :=
  rfl

/-- Claim C5: `resolve("週六前")` and `resolve("週六之前")` do NOT agree.
`replace("前", "")` runs first and removes the 前 inside 之前, leaving
週六之; after weekday substitution the phrase is the single
unrecognizable token "saturday之" (a CJK ideograph is alphabetic, so it
extends the same word token), the fuzzy parse finds no date, and
resolution fails — whereas 週六前 resolves to the next Saturday at
midnight.  This makes the dedicated `replace("之前", "")` dead code,
contradicting the source's own comment that both qualifiers are
removed. -/
theorem qualifier_order_breaks_zhiqian (now : PyDateTime) :
    App.strip_qualifiers "週六前" = "週六"
    ∧ App.resolve_due "週六前" now =
        some ⟨nextWeekdayOnOrAfter now.day 5, 0, 0, 0, 0⟩
    ∧ App.strip_qualifiers "週六之前" = "週六之"
    ∧ App.apply_weekday_mapping "週六之" = "saturday之"
    ∧ tokenize "saturday之" = ["saturday之"]
    ∧ App.resolve_due "週六之前" now = none :=
  ⟨rfl, rfl, rfl, rfl, rfl, rfl⟩

/-- Claim C6: a due phrase with no date content resolves to a failure
value, and the enclosing handler downgrades it: the user gets the
date-failure warning, the language-model reply is still produced, and
the card request is still issued with the due field absent. -/
theorem unresolvable_due_phrase_fails_soft
    (llm : String → String) (tasks : Option String → String)
    (now : PyDateTime) (store : Store) :
    App.resolve_due "not a date at all !!!" now = none
    ∧ App.callback_text_event llm tasks now store "U2"
        "新增任務：交報告，日期：not a date at all !!!" =
      ⟨[("U2", App.dateFailMsg),
        ("U2", llm "新增任務：交報告，日期：not a date at all !!!")],
       ["新增任務：交報告，日期：not a date at all !!!"],
       [⟨"交報告", none, none⟩], store, false⟩ :=
  ⟨rfl, rfl⟩

/-- Claim C7: the `except` branch of `create_trello_card` does not
complete — it evaluates the names `bindings` and `user_id`, neither of
which is a parameter, local, or module global of app.py, so the branch
itself raises `NameError` instead of sending the failure message. -/
theorem card_creation_error_branch_raises_name_error :
    (∀ card_name, App.create_trello_card_on_request_error card_name =
      Except.error (PyErr.nameError "bindings"))
    ∧ App.nameInCardScope "bindings" = false
    ∧ App.nameInCardScope "user_id" = false :=
  ⟨fun _ => rfl, by decide, by decide⟩

/-- Claim C8: resolving 明天早上 fails instead of producing tomorrow at
08:00.  The pipeline does map 明天 to "tomorrow" and does record the
08:00 default while removing 早上, but the fuzzy date parser has no
notion of the token "tomorrow": it is skipped as a non-date word, no
date information remains, and the parse raises — so the caller is
warned and the due field stays absent. -/
theorem tomorrow_morning_resolution_fails (now : PyDateTime) :
    App.apply_weekday_mapping (App.strip_qualifiers "明天早上")
        = "tomorrow早上"
    ∧ App.extract_time_default "tomorrow早上" = (8, "tomorrow")
    ∧ tokenize "tomorrow" = ["tomorrow"]
    ∧ weekdayIndex "tomorrow" = none
    ∧ App.resolve_due "明天早上" now = none :=
  ⟨rfl, rfl, rfl, rfl, rfl⟩

/-- Claim C9: the bound-user message
新增任務：買牛奶，成員：小明，日期：週六 is split on the fullwidth
comma, each marker prefix is removed and its value trimmed, yielding
the create-task fields task 買牛奶, member 小明, due expression 週六;
the callback routes it to task creation, issuing one card request for
買牛奶 assigned to 小明 (due: the resolved next Saturday). -/
theorem structured_create_task_classification
    (llm : String → String) (tasks : Option String → String)
    (now : PyDateTime) (store : Store) :
    App.parse_task_fields "新增任務：買牛奶，成員：小明，日期：週六" =
      ⟨"買牛奶", some "小明", none, some "週六"⟩
    ∧ App.callback_text_event llm tasks now store "U3"
        "新增任務：買牛奶，成員：小明，日期：週六" =
      ⟨[("U3", llm "新增任務：買牛奶，成員：小明，日期：週六")],
       ["新增任務：買牛奶，成員：小明，日期：週六"],
       [⟨"買牛奶", some "小明",
         some ⟨nextWeekdayOnOrAfter now.day 5, 0, 0, 0, 0⟩⟩],
       store, false⟩ :=
  ⟨rfl, rfl⟩

/-- Claim C10 (amended): `app.py`'s `load_bindings` fails soft on every
failure mode — missing, unreadable, and malformed files each yield the
empty store, and no file state makes it raise; the minimal revision
`app.py.py` fails soft only for the missing file and propagates the
read error and the JSON decode error to its caller. -/
theorem load_bindings_failure_modes :
    App.load_bindings .missing = .ok []
    ∧ App.load_bindings .unreadable = .ok []
    ∧ App.load_bindings .malformed = .ok []
    ∧ (∀ fs, ∃ b, App.load_bindings fs = .ok b)
    ∧ AppPy.load_bindings .missing = .ok []
    ∧ AppPy.load_bindings .unreadable = .error .osError
    ∧ AppPy.load_bindings .malformed = .error .jsonDecodeError := by
  refine ⟨rfl, rfl, rfl, ?_, rfl, rfl, rfl⟩
  intro fs
  cases fs <;> exact ⟨_, rfl⟩

/-- Counterexample to claim C10 as stated: in `app.py.py` a malformed
binding file does not yield an empty store — the JSON decode error is
raised to the caller. -/
theorem malformed_binding_file_raises_cex :
    AppPy.load_bindings BindingFileState.malformed =
      Except.error PyErr.jsonDecodeError :=
  rfl

end LineTrello
